import Mathlib

/-!
Shallow embedding of the SupaCheck compliance-check service.

Source files embedded here:
  * `src/app/api/users/route.ts` (second handler): `logSecurityIssue`,
    `checkRLSStatus`, and the compliance `GET` handler (the Aggregator run);
  * `src/app/api/admin/data/route.ts` (second handler): `securityDocs` and the
    Remediation Assistant `POST` handler;
  * `src/app/api/login/route.ts`: the login `POST` handler.

The Supabase client calls are modelled as inputs: each upstream call's result
(`{ data, error }` pair, or the thrown/ok outcome of a fetch) is a field of an
environment record, and every handler is a pure function of that environment.
Besides the HTTP result, the model returns the ordered list of
`security_logs` insert payloads and the ordered list of upstream calls made,
so that claims about audit records and about which providers actually ran can
be stated.
-/

namespace SupaCheck

/-- The `'RLS' | 'MFA' | 'PITR'` union type used throughout the source. -/
inductive Feature where
  | RLS
  | MFA
  | PITR
deriving DecidableEq, Repr

/-- Error object returned (or thrown) by a Supabase client call; the source
only ever reads `error.message`. -/
structure UpstreamError where
  message : String
deriving DecidableEq, Repr

/-- A registered MFA factor of a user, as an element of `user.factors`; the
source only ever takes the length of this array, so the payload is opaque. -/
structure Factor where
  factorId : String
deriving DecidableEq, Repr

/-- A user object as returned by `supabase.auth.admin.listUsers()`: the source
reads `user.id`, `user.email` (nullable) and `user.factors` (possibly absent,
hence `Option`; `user.factors?.length` is `undefined` when absent). -/
structure UpstreamUser where
  id : String
  email : Option String
  factors : Option (List Factor)
deriving DecidableEq, Repr

/-- One row of the `check_rls_status` RPC result; the source reads
`table_name`, `rls_enabled`, `has_policies` and `policy_count`. -/
structure RlsRow where
  table_name : String
  rls_enabled : Bool
  has_policies : Bool
  policy_count : Nat
deriving DecidableEq, Repr

/-- One row of the `check_pitr_status` RPC result; the source reads
`pitr_enabled`. -/
structure PitrRow where
  pitr_enabled : Bool
deriving DecidableEq, Repr

/-- One element of the `MFA` array in the handler's JSON response:
`{ id, email, mfa_enabled }`. -/
structure MfaFinding where
  id : String
  email : Option String
  mfa_enabled : Bool
deriving DecidableEq, Repr

/-- One element of the `RLS` array in the handler's JSON response:
`{ table, rls_enabled, has_policies, policy_count }`. -/
structure RlsFinding where
  table : String
  rls_enabled : Bool
  has_policies : Bool
  policy_count : Nat
deriving DecidableEq, Repr

/-- The payload of one `supabase.from('security_logs').insert({...})` call
issued by `logSecurityIssue`. -/
structure LogRecord where
  feature : Feature
  status : Bool
  resource_name : Option String
  suggested_fix : Option String
  auto_fixable : Bool
deriving DecidableEq, Repr

/-- The `suggestedFixes` object literal in `logSecurityIssue`. -/
def suggestedFixes : Feature → String
  | .RLS => "Enable RLS with: ALTER TABLE table_name ENABLE ROW LEVEL SECURITY; and add appropriate policies"
  | .MFA => "Enable MFA in authentication settings and require users to set up 2FA"
  | .PITR => "Enable PITR in your project settings for better backup and recovery options"

/-- The `autoFixable` object literal in `logSecurityIssue`. -/
def autoFixable : Feature → Bool
  | .RLS => true
  | .MFA => false
  | .PITR => false

/-- `logSecurityIssue(supabase, feature, status, resourceName?)`: builds the
row inserted into `security_logs`.  `suggested_fix` is
`!status ? suggestedFixes[feature] : null` and `auto_fixable` is
`!status ? autoFixable[feature] : false`. -/
def logSecurityIssue (feature : Feature) (status : Bool)
    (resourceName : Option String) : LogRecord :=
  { feature := feature
    status := status
    resource_name := resourceName
    suggested_fix := if !status then some (suggestedFixes feature) else none
    auto_fixable := if !status then autoFixable feature else false }

/-- `checkRLSStatus(supabase)`, as a function of the
`supabase.rpc('check_rls_status')` outcome.  On an error result it returns the
single hard-coded synthetic finding for `'posts_table'` (and performs no
logging); on success it logs `rls_enabled && has_policies` for every row and
maps the rows to findings.  Result: `(returned findings, security_logs inserts
in order)`. -/
def checkRLSStatus (rlsResult : Except UpstreamError (List RlsRow)) :
    List RlsFinding × List LogRecord :=
  match rlsResult with
  | .error _ =>
      ([{ table := "posts_table"
          rls_enabled := false
          has_policies := false
          policy_count := 0 }], [])
  | .ok rlsData =>
      (rlsData.map fun t =>
        { table := t.table_name
          rls_enabled := t.rls_enabled
          has_policies := t.has_policies
          policy_count := t.policy_count },
       rlsData.map fun t =>
        logSecurityIssue .RLS (t.rls_enabled && t.has_policies) (some t.table_name))

/-- `users.map(user => ({ id, email, mfa_enabled: Boolean(user.factors?.length > 0) }))`
from the compliance `GET` handler. -/
def mfaResults (users : List UpstreamUser) : List MfaFinding :=
  users.map fun user =>
    { id := user.id
      email := user.email
      mfa_enabled :=
        match user.factors with
        | none => false
        | some fs => decide (fs.length > 0) }

/-- `pitrData?.[0]?.pitr_enabled || false` from the compliance `GET` handler. -/
def pitrValue (pitrData : Option (List PitrRow)) : Bool :=
  match pitrData with
  | none => false
  | some [] => false
  | some (row :: _) => row.pitr_enabled

/-- The `MFA` / `RLS` / `PITR` fields of the handler's success JSON response
(the response also embeds the recent `security_logs` select, which carries no
finding data and is tracked only as an upstream call here). -/
structure ComplianceReport where
  MFA : List MfaFinding
  RLS : List RlsFinding
  PITR : Bool
deriving DecidableEq, Repr

/-- The HTTP outcome of the compliance `GET` handler: the 401
`'Not authenticated'` response, the catch-all 500 response carrying
`error.message`, or the 200 report. -/
inductive RunResult where
  | authError
  | runError (message : String)
  | ok (report : ComplianceReport)
deriving DecidableEq, Repr

/-- The upstream (Supabase) calls the compliance handler can make, in source
order. -/
inductive UpstreamCall where
  | listUsers
  | rpcCheckRlsStatus
  | rpcCheckPitrStatus
  | selectSecurityLogs
deriving DecidableEq, Repr

/-- Inputs of one compliance `GET` request: the two credential cookies and the
results each upstream call would produce if made. -/
structure Env where
  projectUrlCookie : Option String
  serviceKeyCookie : Option String
  listUsersResult : Except UpstreamError (List UpstreamUser)
  rlsResult : Except UpstreamError (List RlsRow)
  pitrData : Option (List PitrRow)
  pitrError : Option UpstreamError
deriving Repr

/-- JavaScript truthiness of `req.cookies.get(name)?.value`: falsy when the
cookie is absent or the empty string. -/
def jsTruthy : Option String → Bool
  | none => false
  | some s => !(s = "")

/-- Everything observable about one compliance run: the HTTP result, the
`security_logs` insert payloads in order, and the upstream calls made in
order. -/
structure RunOutcome where
  result : RunResult
  logs : List LogRecord
  calls : List UpstreamCall
deriving Repr

/-- The compliance `GET` handler (the Aggregator run).  Mirrors the source:
missing/empty credential cookies short-circuit to 401; a `listUsers` error is
rethrown (`if (userError) throw userError`) and lands in the catch block as a
500 before anything is logged; otherwise MFA findings are computed and each
logged, `checkRLSStatus` runs, the PITR RPC result degrades to `false` via
`pitrData?.[0]?.pitr_enabled || false` (its error is only console-logged), the
PITR singleton is logged, and the report plus a recent-logs select is
returned. -/
def runChecks (env : Env) : RunOutcome :=
  if !(jsTruthy env.projectUrlCookie && jsTruthy env.serviceKeyCookie) then
    { result := .authError, logs := [], calls := [] }
  else
    match env.listUsersResult with
    | .error e =>
        { result := .runError e.message, logs := [], calls := [.listUsers] }
    | .ok users =>
        let mfa := mfaResults users
        let mfaLogs := mfa.map fun u => logSecurityIssue .MFA u.mfa_enabled u.email
        let rlsOut := checkRLSStatus env.rlsResult
        let pitrEnabled := pitrValue env.pitrData
        let pitrLog := logSecurityIssue .PITR pitrEnabled none
        { result := .ok { MFA := mfa, RLS := rlsOut.1, PITR := pitrEnabled }
          logs := mfaLogs ++ rlsOut.2 ++ [pitrLog]
          calls := [.listUsers, .rpcCheckRlsStatus, .rpcCheckPitrStatus,
                    .selectSecurityLogs] }

/-- Number of findings carried by a run result: one per MFA entry, one per RLS
entry, plus the PITR singleton; error responses carry none. -/
def findingsCount : RunResult → Nat
  | .ok report => report.MFA.length + report.RLS.length + 1
  | _ => 0

/-! ### Remediation Assistant (`src/app/api/admin/data/route.ts`, second handler) -/

/-- The `securityDocs` object literal: fixed per-category reference text. -/
def securityDocs : Feature → String
  | .RLS => "
    Enabling Row Level Security (RLS) in Supabase Dashboard:
    1. Navigate to Authentication > Policies in your Supabase dashboard
    2. Find the table you want to secure
    3. Click \"Enable RLS\" button
    4. Add policies through the UI:
       - Click \"New Policy\"
       - Use policy templates or create custom ones
       - Set who can access what data

    Common settings:
    - Enable read-only access
    - Allow authenticated users only
    - Enable full access for authenticated users
    - Custom policy with specific conditions
  "
  | .MFA => "
    Setting up Multi-Factor Authentication (MFA) in Supabase:
    1. Go to Authentication > Providers in dashboard
    2. Enable MFA in authentication settings
    3. Guide users through MFA setup:
       - Users go to account settings
       - Click enable MFA
       - Scan QR code with authenticator app
       - Enter verification code

    Dashboard settings:
    - Optional vs Required MFA
    - Allowed authentication factors
    - Recovery options
    - User management
  "
  | .PITR => "
    Enabling Point in Time Recovery (PITR) in Supabase:
    1. Go to Database > Backups in dashboard
    2. Find PITR section
    3. Enable PITR feature
    4. Select retention period

    Dashboard options:
    - Backup frequency
    - Retention period selection
    - Recovery point status
    - Backup health monitoring
  "

/-- One element of the request transcript / of the OpenAI message list; the
source keeps only `role` and `content` of each. -/
structure ChatMessage where
  role : String
  content : String
deriving DecidableEq, Repr

/-- The `systemPrompt` template literal: the fixed preamble, the per-category
`securityDocs` block, the optional `Specifically for resource:` line, and the
closing instruction. -/
def systemPrompt (feature : Feature) (resourceName : Option String) : String :=
  "You are a Supabase security expert assistant. You help users fix security issues and implement best practices.
    Current context: " ++ securityDocs feature ++ "
    " ++ (match resourceName with
          | some r => "Specifically for resource: " ++ r
          | none => "") ++ "

    Provide specific, actionable advice based on Supabase documentation. Include code examples when relevant."

/-- The `messages` array passed to `openai.chat.completions.create`: the
system message built from `systemPrompt`, followed by
`messages.map(msg => ({ role: msg.role, content: msg.content }))`. -/
def chatRequestMessages (messages : List ChatMessage) (feature : Feature)
    (resourceName : Option String) : List ChatMessage :=
  { role := "system", content := systemPrompt feature resourceName } ::
    messages.map fun msg => { role := msg.role, content := msg.content }

/-- The chat `POST` handler on the success path, as a function of the request
body and of the completion the upstream call returns: it sends
`chatRequestMessages` and responds with
`completion.choices[0].message.content` verbatim.  Result: `(response text,
message list sent upstream)`. -/
def chatPOST (messages : List ChatMessage) (feature : Feature)
    (resourceName : Option String) (upstreamReplyText : String) :
    String × List ChatMessage :=
  (upstreamReplyText, chatRequestMessages messages feature resourceName)

/-! ### Login route (`src/app/api/login/route.ts`) -/

/-- Everything observable about one login `POST` response: the HTTP status,
the cookies set on the response, and the upstream (platform) calls made —
the handler makes none. -/
structure LoginResponse where
  status : Nat
  cookies : List (String × String)
  upstreamCalls : List UpstreamCall
deriving DecidableEq, Repr

/-- The login `POST` handler, as a function of the parsed body fields
(`Option` for an absent field).  `if (!projectUrl || !serviceKey)` returns the
400 `'Missing credentials'` response with no cookies; otherwise the 200
`'Login successful'` response sets both cookies.  No upstream call is made on
either path. -/
def loginPOST (projectUrl serviceKey : Option String) : LoginResponse :=
  if !(jsTruthy projectUrl && jsTruthy serviceKey) then
    { status := 400, cookies := [], upstreamCalls := [] }
  else
    { status := 200
      cookies := [("projectUrl", projectUrl.getD ""), ("serviceKey", serviceKey.getD "")]
      upstreamCalls := [] }

/-! ### Spec-side definitions used to state the claims -/

/-- Spec-side notion for the MFA claim: the number of registered second
factors a principal has — the length of its `factors` list, zero when the
list is absent. -/
def registeredFactorCount (user : UpstreamUser) : Nat :=
  match user.factors with
  | none => 0
  | some fs => fs.length

/-! ### Concrete environments used by counterexamples and witnesses -/

/-- A run with valid cookies whose MFA `listUsers` upstream call fails; the
RLS and PITR upstream calls would succeed if made. -/
def mfaFailureEnv : Env :=
  { projectUrlCookie := some "https://proj.supabase.co"
    serviceKeyCookie := some "service-key"
    listUsersResult := .error { message := "fetch failed" }
    rlsResult := .ok [{ table_name := "orders", rls_enabled := true,
                        has_policies := true, policy_count := 2 }]
    pitrData := some [{ pitr_enabled := true }]
    pitrError := none }

/-- A run with valid cookies, two principals (one with a factor, one
without), a failing RLS introspection call, and a successful PITR probe. -/
def rlsFailureEnv : Env :=
  { projectUrlCookie := some "https://proj.supabase.co"
    serviceKeyCookie := some "service-key"
    listUsersResult := .ok
      [{ id := "u1", email := some "a@example.com", factors := some [{ factorId := "f1" }] },
       { id := "u2", email := some "b@example.com", factors := none }]
    rlsResult := .error { message := "rls introspection failed" }
    pitrData := some [{ pitr_enabled := true }]
    pitrError := none }

/-- A run whose cookies are present but rejected by the upstream platform:
`listUsers` fails with an authentication error. -/
def invalidCredsEnv : Env :=
  { projectUrlCookie := some "https://proj.supabase.co"
    serviceKeyCookie := some "wrong-key"
    listUsersResult := .error { message := "Invalid API key" }
    rlsResult := .ok []
    pitrData := none
    pitrError := none }

/-- A run with the `projectUrl` cookie missing. -/
def noCredsEnv : Env :=
  { projectUrlCookie := none
    serviceKeyCookie := some "service-key"
    listUsersResult := .ok []
    rlsResult := .ok []
    pitrData := none
    pitrError := none }

/-- A run whose RLS introspection returns a row with `has_policies = true`
but `policy_count = 0`. -/
def inconsistentRlsEnv : Env :=
  { projectUrlCookie := some "https://proj.supabase.co"
    serviceKeyCookie := some "service-key"
    listUsersResult := .ok []
    rlsResult := .ok [{ table_name := "t1", rls_enabled := true,
                        has_policies := true, policy_count := 0 }]
    pitrData := none
    pitrError := none }

/-! ### Theorems for the claims -/

/-- Claim C5: every `security_logs` record written for a failing finding
(`status = false`) carries the non-null remediation string for its category
and `auto_fixable` exactly `true` for RLS and `false` for MFA and PITR, while
a passing finding (`status = true`) carries a null `suggested_fix` (and
`auto_fixable = false`). -/
theorem C5_audit_remediation_and_fixability (feature : Feature) (status : Bool)
    (resourceName : Option String) :
    (logSecurityIssue feature status resourceName).suggested_fix
        = (if status then none else some (suggestedFixes feature))
      ∧ (logSecurityIssue feature status resourceName).auto_fixable
        = (!status && (feature == Feature.RLS)) := by
  cases status <;> cases feature <;>
    simp [logSecurityIssue, autoFixable]

/-- Claim C6: in the success path of `checkRLSStatus`, the `status` logged for
the i-th relation equals the i-th returned finding's
`rls_enabled && has_policies`, so an RLS finding with zero effective policies
is always logged as failing even when its enablement flag is true. -/
theorem C6_rls_logged_status_is_enabled_and_policies (rows : List RlsRow) :
    (checkRLSStatus (Except.ok rows)).2.map (fun record => record.status)
      = (checkRLSStatus (Except.ok rows)).1.map
          (fun f => f.rls_enabled && f.has_policies) := by
  simp [checkRLSStatus, logSecurityIssue, List.map_map, Function.comp]

/-- Claim C8: the MFA check produces exactly one finding per principal
returned by the listing, and the i-th finding's `mfa_enabled` is true exactly
when the i-th principal has at least one registered second factor. -/
theorem C8_mfa_one_finding_per_principal_enabled_iff_factor
    (users : List UpstreamUser) :
    (mfaResults users).length = users.length
      ∧ (mfaResults users).map (fun f => f.mfa_enabled)
        = users.map (fun u => decide (0 < registeredFactorCount u)) := by
  refine ⟨by simp [mfaResults], ?_⟩
  simp only [mfaResults, List.map_map]
  induction users with
  | nil => rfl
  | cons u us ih =>
      simp only [List.map_cons, ih, List.cons.injEq, and_true]
      cases h : u.factors <;> simp [registeredFactorCount, Function.comp, h]

/-- Claim C9: the message list the chat handler sends upstream is exactly the
system message built from the fixed per-category reference block (naming the
resource when supplied) followed by the caller's transcript in its original
order, and the reply returned to the caller is the upstream completion text
verbatim; the handler is a pure function of the request and the upstream
reply. -/
theorem C9_chat_request_shape_and_verbatim_reply (messages : List ChatMessage)
    (feature : Feature) (resourceName : Option String)
    (upstreamReplyText : String) :
    chatPOST messages feature resourceName upstreamReplyText
      = (upstreamReplyText,
         { role := "system", content := systemPrompt feature resourceName }
           :: messages) := by
  have hmap : (fun msg : ChatMessage => ChatMessage.mk msg.role msg.content)
      = fun msg => msg := by
    funext msg; cases msg; rfl
  simp [chatPOST, chatRequestMessages, hmap]

/-- Claim C10: a login body with both values present and non-empty yields the
200 response that stores both values as cookies while making no upstream
call, and a body with either value missing yields the 400 response with no
cookies. -/
theorem C10_login_stores_credentials_without_validation
    (projectUrl serviceKey : Option String) :
    (∀ u k, projectUrl = some u → serviceKey = some k → u ≠ "" → k ≠ "" →
        loginPOST projectUrl serviceKey
          = { status := 200
              cookies := [("projectUrl", u), ("serviceKey", k)]
              upstreamCalls := [] })
      ∧ (projectUrl = none ∨ serviceKey = none →
        loginPOST projectUrl serviceKey
          = { status := 400, cookies := [], upstreamCalls := [] }) := by
  constructor
  · intro u k hu hk hune hkne
    subst hu; subst hk
    simp [loginPOST, jsTruthy, hune, hkne]
  · rintro (h | h) <;> subst h <;>
      simp [loginPOST, jsTruthy, Bool.and_comm]

/-- Witness for Claim C10's theorem at concrete inputs: a non-empty pair logs
in and stores both cookies; a body missing the project URL is rejected. -/
theorem C10_login_witness :
    loginPOST (some "https://proj.supabase.co") (some "service-key")
        = { status := 200
            cookies := [("projectUrl", "https://proj.supabase.co"),
                        ("serviceKey", "service-key")]
            upstreamCalls := [] }
      ∧ loginPOST none (some "service-key")
        = { status := 400, cookies := [], upstreamCalls := [] } :=
  ⟨(C10_login_stores_credentials_without_validation
      (some "https://proj.supabase.co") (some "service-key")).1
      "https://proj.supabase.co" "service-key" rfl rfl (by decide) (by decide),
   (C10_login_stores_credentials_without_validation
      none (some "service-key")).2 (Or.inl rfl)⟩

/-- Claim C1, counterexample: when the MFA provider's upstream `listUsers`
call fails (valid cookies, RLS and PITR upstreams healthy), the run aborts
with the generic 500 response, the RLS and PITR checks are never made, and no
failing MFA finding or audit record is produced — the error is rethrown, not
caught at the provider boundary. -/
theorem C1_counterexample_mfa_error_aborts_run :
    (runChecks mfaFailureEnv).result = .runError "fetch failed"
      ∧ (runChecks mfaFailureEnv).calls = [.listUsers]
      ∧ (runChecks mfaFailureEnv).logs = [] := by
  refine ⟨rfl, rfl, rfl⟩

/-- Claim C1 as amended: the RLS and PITR providers do handle an upstream
error result at their boundary — whenever the MFA listing succeeds the run
completes with a report whose RLS findings come from `checkRLSStatus`
(synthetic fail-closed finding on error) and whose PITR value degrades to
`false` — but an MFA listing error is rethrown and aborts the entire run with
a 500 before any finding or audit record exists, even though it is not a
failure of the run's credential gate. -/
theorem C1_amended_error_boundaries (env : Env)
    (hcred : (jsTruthy env.projectUrlCookie && jsTruthy env.serviceKeyCookie)
      = true) :
    (∀ e, env.listUsersResult = .error e →
        (runChecks env).result = .runError e.message
          ∧ (runChecks env).logs = []
          ∧ (runChecks env).calls = [.listUsers])
      ∧ (∀ users, env.listUsersResult = .ok users →
        (runChecks env).result
          = .ok { MFA := mfaResults users
                  RLS := (checkRLSStatus env.rlsResult).1
                  PITR := pitrValue env.pitrData }) := by
  constructor
  · intro e he
    refine ⟨?_, ?_, ?_⟩ <;> simp [runChecks, hcred, he]
  · intro users hu
    simp [runChecks, hcred, hu]

/-- Witness for Claim C1's amended theorem: at `mfaFailureEnv` the credential
gate passes and the MFA-error branch applies; at `rlsFailureEnv` the listing
succeeds and the run completes with the fail-closed RLS finding. -/
theorem C1_amended_error_boundaries_witness :
    ((runChecks mfaFailureEnv).result = .runError "fetch failed"
        ∧ (runChecks mfaFailureEnv).logs = []
        ∧ (runChecks mfaFailureEnv).calls = [.listUsers])
      ∧ (runChecks rlsFailureEnv).result
        = .ok { MFA := mfaResults
                  [{ id := "u1", email := some "a@example.com",
                     factors := some [{ factorId := "f1" }] },
                   { id := "u2", email := some "b@example.com",
                     factors := none }]
                RLS := (checkRLSStatus rlsFailureEnv.rlsResult).1
                PITR := pitrValue rlsFailureEnv.pitrData } :=
  ⟨(C1_amended_error_boundaries mfaFailureEnv (by decide)).1
      { message := "fetch failed" } rfl,
   (C1_amended_error_boundaries rlsFailureEnv (by decide)).2
      [{ id := "u1", email := some "a@example.com",
         factors := some [{ factorId := "f1" }] },
       { id := "u2", email := some "b@example.com", factors := none }] rfl⟩

/-- Claim C2, counterexample: in the run `rlsFailureEnv` (two MFA findings,
one synthetic fail-closed RLS finding after the introspection error, the PITR
singleton) the report carries 4 findings but only 3 audit records are
written, and none of them is an RLS record — the synthetic RLS finding is
returned without being logged, contrary to scenario B. -/
theorem C2_counterexample_synthetic_rls_finding_unlogged :
    findingsCount (runChecks rlsFailureEnv).result = 4
      ∧ (runChecks rlsFailureEnv).logs.length = 3
      ∧ ((runChecks rlsFailureEnv).logs.filter
          (fun record => record.feature == Feature.RLS)) = [] := by
  refine ⟨rfl, rfl, rfl⟩

/-- Claim C2 as amended: each run writes one audit record per MFA finding and
one for the PITR singleton, and one per RLS relation when introspection
succeeds (so scenario A writes exactly 4 records); but when RLS introspection
fails, the synthetic fail-closed RLS finding appears in the report without
any audit record, so the record count is one less than the finding count. -/
theorem C2_amended_audit_record_count (env : Env) (users : List UpstreamUser)
    (hcred : (jsTruthy env.projectUrlCookie && jsTruthy env.serviceKeyCookie)
      = true)
    (husers : env.listUsersResult = .ok users) :
    (runChecks env).logs.length
        = users.length
          + (match env.rlsResult with
             | .ok rows => rows.length
             | .error _ => 0)
          + 1
      ∧ findingsCount (runChecks env).result
        = users.length
          + (match env.rlsResult with
             | .ok rows => rows.length
             | .error _ => 1)
          + 1 := by
  cases hr : env.rlsResult <;>
    simp [runChecks, hcred, husers, hr, checkRLSStatus, mfaResults,
      findingsCount, Nat.add_assoc]

/-- Witness for Claim C2's amended theorem at `rlsFailureEnv`: 2 principals,
failed introspection, PITR singleton — 3 audit records, 4 findings. -/
theorem C2_amended_audit_record_count_witness :
    (runChecks rlsFailureEnv).logs.length = 2 + 0 + 1
      ∧ findingsCount (runChecks rlsFailureEnv).result = 2 + 1 + 1 :=
  C2_amended_audit_record_count rlsFailureEnv
    [{ id := "u1", email := some "a@example.com",
       factors := some [{ factorId := "f1" }] },
     { id := "u2", email := some "b@example.com", factors := none }]
    (by decide) rfl

/-- Claim C3, counterexample: when the RLS introspection call fails while the
schema's relation of interest is `logs` (scenario B), the provider's output
contains no finding labelled `logs` at all — it is the single hard-coded
finding labelled `posts_table` — so the finding for the affected resource is
omitted rather than returned fail-closed under its own label. -/
theorem C3_counterexample_synthetic_finding_wrong_resource :
    (checkRLSStatus (Except.error { message := "probe failed for logs" })).1
        = [{ table := "posts_table", rls_enabled := false,
             has_policies := false, policy_count := 0 }]
      ∧ (((checkRLSStatus
            (Except.error { message := "probe failed for logs" })).1.map
          (fun f => f.table)).contains "logs") = false := by
  refine ⟨rfl, rfl⟩

/-- Claim C3 as amended: on any RLS introspection error the provider returns
exactly one synthetic finding with the fixed label `posts_table` and the
fail-closed values `enabled = false`, `policyCount = 0`,
`hasPolicies = false`, writing no audit record; findings for the actual
affected resources are omitted (only a finding labelled `posts_table` ever
survives an error, never defaulted to `enabled = true`). -/
theorem C3_amended_fail_closed_synthetic_finding (e : UpstreamError) :
    checkRLSStatus (Except.error e)
      = ([{ table := "posts_table", rls_enabled := false,
            has_policies := false, policy_count := 0 }], []) := rfl

/-- Claim C4, counterexample: with credential cookies present but rejected by
the upstream platform (`listUsers` fails with an authentication error), the
run does not short-circuit before any provider runs — the MFA provider's
upstream call is made — and the response is the generic 500 carrying the
error message, not the distinct 401 authentication-error response (no
findings and no audit records are produced, though). -/
theorem C4_counterexample_invalid_creds_reach_provider :
    (runChecks invalidCredsEnv).calls = [.listUsers]
      ∧ (runChecks invalidCredsEnv).result = .runError "Invalid API key"
      ∧ (runChecks invalidCredsEnv).result ≠ .authError
      ∧ (runChecks invalidCredsEnv).logs = [] := by
  refine ⟨rfl, rfl, by decide, rfl⟩

/-- Claim C4 as amended: the run short-circuits before any provider runs —
401 authentication error, no findings, no upstream calls, no audit records —
exactly when a credential cookie is missing or empty; when credentials are
present but rejected upstream, the MFA listing call is made and its error
aborts the run as a generic 500 response, still with no findings and no audit
records written. -/
theorem C4_amended_auth_gate (env : Env) :
    ((jsTruthy env.projectUrlCookie && jsTruthy env.serviceKeyCookie) = false →
        runChecks env = { result := .authError, logs := [], calls := [] })
      ∧ (∀ e,
        (jsTruthy env.projectUrlCookie && jsTruthy env.serviceKeyCookie)
          = true →
        env.listUsersResult = .error e →
        (runChecks env).result = .runError e.message
          ∧ (runChecks env).logs = []
          ∧ (runChecks env).calls = [.listUsers]) := by
  constructor
  · intro h
    simp [runChecks, h]
  · intro e h he
    refine ⟨?_, ?_, ?_⟩ <;> simp [runChecks, h, he]

/-- Witness for Claim C4's amended theorem: `noCredsEnv` (missing cookie)
short-circuits to the 401 outcome; `invalidCredsEnv` (present but rejected
credentials) aborts at the MFA listing with the generic 500. -/
theorem C4_amended_auth_gate_witness :
    runChecks noCredsEnv = { result := .authError, logs := [], calls := [] }
      ∧ ((runChecks invalidCredsEnv).result = .runError "Invalid API key"
        ∧ (runChecks invalidCredsEnv).logs = []
        ∧ (runChecks invalidCredsEnv).calls = [.listUsers]) :=
  ⟨(C4_amended_auth_gate noCredsEnv).1 (by decide),
   (C4_amended_auth_gate invalidCredsEnv).2
      { message := "Invalid API key" } (by decide) rfl⟩

/-- Claim C7, counterexample: a run whose introspection returns a row with
`has_policies = true` and `policy_count = 0` produces a ComplianceReport
containing an RLS finding violating `hasPolicies = (policyCount > 0)` — the
flag is copied verbatim from upstream, not derived. -/
theorem C7_counterexample_has_policies_not_derived :
    ((checkRLSStatus inconsistentRlsEnv.rlsResult).1.all
        (fun f => f.has_policies == decide (f.policy_count > 0))) = false
      ∧ (runChecks inconsistentRlsEnv).result
        = .ok { MFA := []
                RLS := [{ table := "t1", rls_enabled := true,
                          has_policies := true, policy_count := 0 }]
                PITR := false } := by
  refine ⟨rfl, rfl⟩

/-- Claim C7 as amended: each finding's `has_policies` and `policy_count` are
copied verbatim from the upstream introspection row, so
`hasPolicies = (policyCount > 0)` holds for every finding of a successful
check exactly when the upstream rows satisfy it; the synthetic finding
returned on an introspection error always satisfies it. -/
theorem C7_amended_has_policies_passthrough (rows : List RlsRow)
    (hrows : (rows.all
      (fun row => row.has_policies == decide (row.policy_count > 0))) = true) :
    ((checkRLSStatus (Except.ok rows)).1.all
        (fun f => f.has_policies == decide (f.policy_count > 0))) = true
      ∧ ∀ e : UpstreamError,
        ((checkRLSStatus (Except.error e)).1.all
          (fun f => f.has_policies == decide (f.policy_count > 0))) = true := by
  constructor
  · simpa [checkRLSStatus, List.all_map, Function.comp] using hrows
  · intro e
    rfl

/-- Witness for Claim C7's amended theorem: a consistent upstream row keeps
the invariant, and the synthetic error finding satisfies it. -/
theorem C7_amended_has_policies_passthrough_witness :
    ((checkRLSStatus (Except.ok
        [{ table_name := "orders", rls_enabled := true, has_policies := true,
           policy_count := 2 }])).1.all
        (fun f => f.has_policies == decide (f.policy_count > 0))) = true
      ∧ ((checkRLSStatus
            (Except.error { message := "boom" })).1.all
          (fun f => f.has_policies == decide (f.policy_count > 0))) = true :=
  ⟨(C7_amended_has_policies_passthrough
      [{ table_name := "orders", rls_enabled := true, has_policies := true,
         policy_count := 2 }] (by decide)).1,
   (C7_amended_has_policies_passthrough
      [{ table_name := "orders", rls_enabled := true, has_policies := true,
         policy_count := 2 }] (by decide)).2 { message := "boom" }⟩

end SupaCheck
